import Mathlib

/-!
Shallow embedding of the device-communication and resilience layer of the
`env-sensor-dashboard` repository (`src/sensor.py`, `src/database.py`).

Bytes are modelled as natural numbers (`< 256` where relevant), byte buffers
as `List Nat`, machine integers as `Nat`/`Int` with explicit reductions, and
fixed-point scaled sensor values as exact rationals.  Fallible code is
modelled with `Except`/`Option`; Python exceptions become `Except.error`
values and `try/except` handlers become explicit `match`es on them.
-/

set_option autoImplicit false
set_option maxRecDepth 8000

/-- Number of decimal places implied by a scale factor: `roundTo d q` rounds
`q` to `d` decimal places, modelling Python's `round(x, d)` (exact on the
multiples of `10⁻ᵈ` produced by the fixed-point fields, where the
half-to-even tie rule never fires). -/
def roundTo (d : Nat) (q : ℚ) : ℚ := ((round (q * (10 : ℚ) ^ d) : ℤ) : ℚ) / (10 : ℚ) ^ d

/-- Reinterpret a 16-bit unsigned value as signed (`struct` format `<h`). -/
def toInt16 (n : Nat) : ℤ := if n < 32768 then (n : ℤ) else (n : ℤ) - 65536

/-- Read an unsigned 16-bit little-endian integer at offset `i`
(`struct.unpack_from` with format `<H`); `none` when out of bounds. -/
def u16le (data : List Nat) (i : Nat) : Option Nat := do
  let a ← data[i]?
  let b ← data[i+1]?
  pure (a + 256 * b)

/-- Read an unsigned 32-bit little-endian integer at offset `i`
(`struct.unpack_from` with format `<I`); `none` when out of bounds. -/
def u32le (data : List Nat) (i : Nat) : Option Nat := do
  let a ← data[i]?
  let b ← data[i+1]?
  let c ← data[i+2]?
  let d ← data[i+3]?
  pure (a + 256 * b + 65536 * c + 16777216 * d)

/-- A decoded sensor reading (`src/sensor.py:_parse_response` result dict).
Scaled fixed-point values are exact rationals. -/
structure Reading where
  temperature : ℚ
  humidity : ℚ
  light : ℚ
  pressure : ℚ
  noise : ℚ
  etvoc : ℚ
  eco2 : ℚ
  discomfort : ℚ
  heat_stroke : ℚ
deriving DecidableEq, Repr

/-- Stale-detection threshold (`src/sensor.py:20`): consecutive identical
reads before a USB reset is attempted. -/
def STALE_THRESHOLD : Nat := 10

/-- One feedback round of the CRC register: shift right once, folding the
polynomial mask back in when the shifted-out bit was set
(`src/sensor.py:_calc_crc`, inner loop body). -/
def crcRound (crc : Nat) : Nat :=
  let carry := crc &&& 1
  let crc := crc >>> 1
  if carry = 1 then crc ^^^ 0xA001 else crc

/-- Absorb one byte into the CRC register: XOR it into the low 8 bits and run
8 feedback rounds (`src/sensor.py:_calc_crc`, outer loop body). -/
def crcByte (crc b : Nat) : Nat := crcRound^[8] (crc ^^^ b)

/-- CRC-16 of a byte list, returned as a 2-byte little-endian list
(`src/sensor.py:_calc_crc`). -/
def _calc_crc (data : List Nat) : List Nat :=
  let crc := data.foldl crcByte 0xFFFF
  [crc &&& 0xFF, crc >>> 8]

/-- The binary frame requesting Latest Data Long (address 0x5021)
(`src/sensor.py:_build_read_command`). -/
def _build_read_command : List Nat :=
  let frame : List Nat := [0x52, 0x42, 0x05, 0x00, 0x01, 0x21, 0x50]
  frame ++ _calc_crc frame

/-- Failure modes of response parsing.  `tooShort` and `badHeader` are the
two `ValueError`s raised by `src/sensor.py:_parse_response`; `outOfBounds`
marks a (never-occurring) buffer index past the end. -/
inductive ParseErr where
  | tooShort
  | badHeader
  | outOfBounds
deriving DecidableEq, Repr

/-- Parse the sensor response buffer into a `Reading`
(`src/sensor.py:_parse_response`).  Field reads use bounds-checked access so
that an out-of-range index is an observable `outOfBounds` error rather than
an arbitrary default. -/
def _parse_response (data : List Nat) : Except ParseErr Reading :=
  if data.length < 30 then .error .tooShort
  else if data.getD 0 0 ≠ 0x52 ∨ data.getD 1 0 ≠ 0x42 then .error .badHeader
  else
    match u16le data 8, u16le data 10, u16le data 12, u32le data 14,
          u16le data 18, u16le data 20, u16le data 22, u16le data 24,
          u16le data 26 with
    | some t, some h, some l, some p, some n, some v, some c, some d, some hs =>
      .ok {
        temperature := roundTo 2 ((toInt16 t : ℚ) * (1/100)),
        humidity := roundTo 2 ((h : ℚ) * (1/100)),
        light := (l : ℚ),
        pressure := roundTo 3 ((p : ℚ) * (1/1000)),
        noise := roundTo 2 ((n : ℚ) * (1/100)),
        etvoc := (v : ℚ),
        eco2 := (c : ℚ),
        discomfort := roundTo 2 ((d : ℚ) * (1/100)),
        heat_stroke := roundTo 2 ((toInt16 hs : ℚ) * (1/100)) }
    | _, _, _, _, _, _, _, _, _ => .error .outOfBounds

/-- CRC register update stated in the spec's own words (§4.1): for 8
iterations, shift right and XOR in the mask 0xA001 whenever the shifted-out
bit was 1.  Kept separate from `crcByte` so that the frame theorem compares
the implementation against the specification text. -/
def crcSpecIter (crc : Nat) : Nat → Nat
  | 0 => crc
  | k + 1 => crcSpecIter (if crc % 2 = 1 then (crc / 2) ^^^ 0xA001 else crc / 2) k

/-- CRC-16 value described by the spec (§4.1): initial register 0xFFFF, XOR
each byte into the low 8 bits, then 8 shift-and-mask iterations. -/
def crcSpecOf (data : List Nat) : Nat :=
  data.foldl (fun crc b => crcSpecIter (crc ^^^ b) 8) 0xFFFF

/-- Spec-side field extraction (§4.1 `decodeResponse`): the nine fields as
the little-endian integers read, in order and without gaps, from byte
offsets 8 through 27, scaled and rounded to the resolution implied by each
scale factor.  Reads nothing outside offsets 8–27. -/
def readingOfBytes (data : List Nat) : Reading :=
  { temperature := roundTo 2 ((toInt16 (data.getD 8 0 + 256 * data.getD 9 0) : ℚ) * (1/100)),
    humidity := roundTo 2 (((data.getD 10 0 + 256 * data.getD 11 0 : Nat) : ℚ) * (1/100)),
    light := ((data.getD 12 0 + 256 * data.getD 13 0 : Nat) : ℚ),
    pressure := roundTo 3 (((data.getD 14 0 + 256 * data.getD 15 0 +
      65536 * data.getD 16 0 + 16777216 * data.getD 17 0 : Nat) : ℚ) * (1/1000)),
    noise := roundTo 2 (((data.getD 18 0 + 256 * data.getD 19 0 : Nat) : ℚ) * (1/100)),
    etvoc := ((data.getD 20 0 + 256 * data.getD 21 0 : Nat) : ℚ),
    eco2 := ((data.getD 22 0 + 256 * data.getD 23 0 : Nat) : ℚ),
    discomfort := roundTo 2 (((data.getD 24 0 + 256 * data.getD 25 0 : Nat) : ℚ) * (1/100)),
    heat_stroke := roundTo 2 ((toInt16 (data.getD 26 0 + 256 * data.getD 27 0) : ℚ) * (1/100)) }

lemma getElem?_eq_some_getD (data : List Nat) (i : Nat) (h : i < data.length) :
    data[i]? = some (data.getD i 0) := by
  simp [List.getD, List.getElem?_eq_getElem h]

lemma u16le_of_lt (data : List Nat) (i : Nat) (h : i + 1 < data.length) :
    u16le data i = some (data.getD i 0 + 256 * data.getD (i+1) 0) := by
  unfold u16le
  rw [getElem?_eq_some_getD data i (by omega), getElem?_eq_some_getD data (i+1) h]
  rfl

lemma u32le_of_lt (data : List Nat) (i : Nat) (h : i + 3 < data.length) :
    u32le data i = some (data.getD i 0 + 256 * data.getD (i+1) 0 +
      65536 * data.getD (i+2) 0 + 16777216 * data.getD (i+3) 0) := by
  unfold u32le
  rw [getElem?_eq_some_getD data i (by omega),
    getElem?_eq_some_getD data (i+1) (by omega),
    getElem?_eq_some_getD data (i+2) (by omega),
    getElem?_eq_some_getD data (i+3) h]
  rfl

lemma parse_ok_of_valid (data : List Nat) (hlen : 30 ≤ data.length)
    (h0 : data.getD 0 0 = 0x52) (h1 : data.getD 1 0 = 0x42) :
    _parse_response data = .ok (readingOfBytes data) := by
  unfold _parse_response
  rw [if_neg (by omega)]
  rw [if_neg (by rw [h0, h1]; decide)]
  rw [u16le_of_lt data 8 (by omega), u16le_of_lt data 10 (by omega),
    u16le_of_lt data 12 (by omega), u32le_of_lt data 14 (by omega),
    u16le_of_lt data 18 (by omega), u16le_of_lt data 20 (by omega),
    u16le_of_lt data 22 (by omega), u16le_of_lt data 24 (by omega),
    u16le_of_lt data 26 (by omega)]
  rfl

lemma parse_badHeader (data : List Nat) (hlen : 30 ≤ data.length)
    (hbad : data.getD 0 0 ≠ 0x52 ∨ data.getD 1 0 ≠ 0x42) :
    _parse_response data = .error .badHeader := by
  unfold _parse_response
  rw [if_neg (by omega)]
  rw [if_pos hbad]

/-- Whether an `Except` computation succeeded. -/
def exceptOk {ε α : Type} : Except ε α → Bool
  | .ok _ => true
  | .error _ => false

/-- A valid 30-byte response: header, 7 ignored bytes, then the nine fields
(temp 25.00, hum 50.00, light 300, pressure 1013.250, noise 40.00,
eTVOC 50, eCO2 600, discomfort 70.00, heat stroke −1.00), 2 trailing bytes. -/
def sampleResp : List Nat :=
  [0x52, 0x42, 0x1A, 0x00, 0x01, 0x21, 0x50, 0x07,
   0xC4, 0x09, 0x88, 0x13, 0x2C, 0x01, 0x02, 0x76, 0x0F, 0x00,
   0xA0, 0x0F, 0x32, 0x00, 0x58, 0x02, 0x58, 0x1B, 0x9C, 0xFF,
   0xAA, 0xBB]

/-- `sampleResp` with a different sequence byte at offset 7, different
length header bytes, and an extra trailing byte: agrees with `sampleResp`
exactly on offsets 8–27 (and the magic header). -/
def sampleResp' : List Nat :=
  [0x52, 0x42, 0x00, 0x00, 0x00, 0x00, 0x00, 0x99,
   0xC4, 0x09, 0x88, 0x13, 0x2C, 0x01, 0x02, 0x76, 0x0F, 0x00,
   0xA0, 0x0F, 0x32, 0x00, 0x58, 0x02, 0x58, 0x1B, 0x9C, 0xFF,
   0x00, 0x00, 0xCC]

/-- C2: `_build_read_command` is a fixed (hence deterministic) 9-byte frame:
the 7 fixed bytes — magic header `52 42`, little-endian payload length
`05 00`, mode selector `01`, little-endian target address `21 50` — followed
by the little-endian CRC-16 (initial register 0xFFFF, reflected mask 0xA001,
per `crcSpecOf`, the spec's bit-level description) of those 7 bytes, low
byte first; concretely the frame `52 42 05 00 01 21 50 E2 4B`. -/
theorem buildCommand_fixed_frame_modbus_crc :
    _build_read_command =
      [0x52, 0x42, 0x05, 0x00, 0x01, 0x21, 0x50] ++
        [crcSpecOf [0x52, 0x42, 0x05, 0x00, 0x01, 0x21, 0x50] % 256,
         crcSpecOf [0x52, 0x42, 0x05, 0x00, 0x01, 0x21, 0x50] / 256] ∧
    _build_read_command = [0x52, 0x42, 0x05, 0x00, 0x01, 0x21, 0x50, 0xE2, 0x4B] ∧
    _build_read_command.length = 9 := by
  refine ⟨by decide, by decide, by decide⟩

/-- C3: for every buffer of at least 30 bytes whose first two bytes are the
magic header, `_parse_response` returns exactly the reading whose nine
fields are the little-endian integers read, in order and without gaps, from
offsets 8–27, scaled and rounded as `readingOfBytes` states; and any second
valid buffer agreeing with it on offsets 8–27 parses to the same reading, so
the byte at offset 7 and the bytes beyond offset 28 do not affect the
result. -/
theorem parse_fields_of_valid_buffer (data data' : List Nat)
    (_hb : data.all (fun b => b < 256) = true)
    (hlen : 30 ≤ data.length) (h0 : data.getD 0 0 = 0x52) (h1 : data.getD 1 0 = 0x42)
    (hlen' : 30 ≤ data'.length) (h0' : data'.getD 0 0 = 0x52) (h1' : data'.getD 1 0 = 0x42)
    (hagree : ∀ i < 28, 8 ≤ i → data.getD i 0 = data'.getD i 0) :
    _parse_response data = .ok (readingOfBytes data) ∧
    _parse_response data' = .ok (readingOfBytes data) := by
  refine ⟨parse_ok_of_valid data hlen h0 h1, ?_⟩
  rw [parse_ok_of_valid data' hlen' h0' h1']
  have hfields : readingOfBytes data' = readingOfBytes data := by
    unfold readingOfBytes
    rw [← hagree 8 (by omega) (by omega), ← hagree 9 (by omega) (by omega),
      ← hagree 10 (by omega) (by omega), ← hagree 11 (by omega) (by omega),
      ← hagree 12 (by omega) (by omega), ← hagree 13 (by omega) (by omega),
      ← hagree 14 (by omega) (by omega), ← hagree 15 (by omega) (by omega),
      ← hagree 16 (by omega) (by omega), ← hagree 17 (by omega) (by omega),
      ← hagree 18 (by omega) (by omega), ← hagree 19 (by omega) (by omega),
      ← hagree 20 (by omega) (by omega), ← hagree 21 (by omega) (by omega),
      ← hagree 22 (by omega) (by omega), ← hagree 23 (by omega) (by omega),
      ← hagree 24 (by omega) (by omega), ← hagree 25 (by omega) (by omega),
      ← hagree 26 (by omega) (by omega), ← hagree 27 (by omega) (by omega)]
  rw [hfields]

/-- Witness for C3 at the concrete buffers `sampleResp` and `sampleResp'`. -/
theorem parse_fields_of_valid_buffer_witness :
    _parse_response sampleResp = .ok (readingOfBytes sampleResp) ∧
    _parse_response sampleResp' = .ok (readingOfBytes sampleResp) :=
  parse_fields_of_valid_buffer sampleResp sampleResp'
    (by decide) (by decide) (by decide) (by decide)
    (by decide) (by decide) (by decide) (by decide)

/-- C4: `_parse_response` fails exactly when the buffer is shorter than 30
bytes or its first two bytes differ from the magic header `52 42`; and on
no input — short buffers included — does it ever index out of bounds. -/
theorem parse_fails_iff_short_or_bad_header (data : List Nat) :
    (exceptOk (_parse_response data) = false ↔
      (data.length < 30 ∨ data.getD 0 0 ≠ 0x52 ∨ data.getD 1 0 ≠ 0x42)) ∧
    _parse_response data ≠ .error .outOfBounds := by
  by_cases hlen : data.length < 30
  · have hshort : _parse_response data = .error .tooShort := by
      unfold _parse_response; rw [if_pos hlen]
    rw [hshort]
    exact ⟨⟨fun _ => Or.inl hlen, fun _ => rfl⟩, by simp⟩
  · by_cases hhdr : data.getD 0 0 ≠ 0x52 ∨ data.getD 1 0 ≠ 0x42
    · rw [parse_badHeader data (by omega) hhdr]
      exact ⟨⟨fun _ => Or.inr hhdr, fun _ => rfl⟩, by simp⟩
    · push_neg at hhdr
      rw [parse_ok_of_valid data (by omega) hhdr.1 hhdr.2]
      refine ⟨⟨fun h => absurd h (by simp [exceptOk]), fun h => ?_⟩, by simp⟩
      rcases h with h | h | h
      · omega
      · exact absurd hhdr.1 h
      · exact absurd hhdr.2 h


/-- Faults that Python code can raise as exceptions: transport-level I/O
faults during a normal read, a parse `ValueError`, the sysfs writes of the
USB reset, the `OSError` of an already-registered `new_id` write, and the
serial reopen / warm-up reads after a reset. -/
inductive Fault where
  | flushErr
  | writeErr
  | parseFail
  | unbindErr
  | rescanErr
  | bindErr
  | osErr
  | reopenErr
  | warmupErr
deriving DecidableEq, Repr

/-- Raise fault `f` when `b` is set, modelling an injectable exception at
one program point. -/
def faultIf (b : Bool) (f : Fault) : Except Fault Unit :=
  if b then .error f else .ok ()

/-- Environment of one `_usb_reset` call: which sysfs writes fault, whether
the xHCI controller is found, whether the `new_id` registration write raises
`OSError` (already registered), and at which 1-second poll attempts
`/dev/ttyUSB*` is present. -/
structure ResetEnv where
  controllerFound : Bool
  unbindFault : Bool
  rescanFault : Bool
  bindFault : Bool
  newIdAlready : Bool
  appears : Nat → Bool

/-- The reappearance poll (`src/sensor.py:148-152`): up to `fuel` attempts
starting at attempt `i`, succeed at the first attempt where the device node
is present. -/
def pollReappear (appears : Nat → Bool) : Nat → Nat → Bool
  | _, 0 => false
  | i, fuel + 1 => if appears i then true else pollReappear appears (i + 1) fuel

/-- The `new_id` registration write (`src/sensor.py:142-143`): raises
`OSError` when the identifier is already registered. -/
def writeNewId (already : Bool) : Except Fault Unit :=
  if already then .error .osErr else .ok ()

/-- The registration write under its `except OSError: pass` handler
(`src/sensor.py:141-145`). -/
def tryWriteNewId (already : Bool) : Except Fault Unit :=
  match writeNewId already with
  | .error .osErr => .ok ()
  | r => r

/-- Body of the `try` block of `_usb_reset` (`src/sensor.py:123-155`):
unbind write, rescan write, bind write, driver re-registration (`modprobe`
is run with captured output and raises nothing), then the 10-attempt
reappearance poll.  `true`/`false` is the function's return value; a raised
fault escapes as `.error`. -/
def usbResetBody (e : ResetEnv) : Except Fault Bool := do
  faultIf e.unbindFault .unbindErr
  faultIf e.rescanFault .rescanErr
  faultIf e.bindFault .bindErr
  tryWriteNewId e.newIdAlready
  pure (pollReappear e.appears 0 10)

/-- `_usb_reset` (`src/sensor.py:108-158`): returns `false` when no xHCI
controller is found; otherwise runs the body under the catch-all handler
that converts any raised fault to `false`. -/
def _usb_reset (e : ResetEnv) : Bool :=
  if !e.controllerFound then false
  else
    match usbResetBody e with
    | .ok b => b
    | .error _ => false

/-- Body of the inner `try` of `_check_stale` (`src/sensor.py:208-217`):
reopen the serial port, then the three warm-up request/response round
trips; either step can fault. -/
def reopenWarmupBody (reopenFault warmupFault : Bool) : Except Fault Unit := do
  faultIf reopenFault .reopenErr
  faultIf warmupFault .warmupErr

/-- The reopen/warm-up sequence under its catch-all handler
(`src/sensor.py:218-219`): a fault is logged and swallowed. -/
def tryReopenWarmup (reopenFault warmupFault : Bool) : Bool :=
  match reopenWarmupBody reopenFault warmupFault with
  | .ok _ => true
  | .error _ => false

/-- Everything the recovery path of one cycle can observe about its
environment. -/
structure RecoveryEnv where
  reset : ResetEnv
  reopenFault : Bool
  warmupFault : Bool

/-- The staleness detector's state (`Sensor.__init__`): the last observed
reading (`_last_reading`, initially `None`) and the consecutive-identical
counter (`_stale_count`, initially 0). -/
structure StaleState where
  last : Option Reading
  count : Nat
deriving DecidableEq, Repr

/-- Observable outcome of one read cycle: the returned value (`None` on
failure), the detector state afterwards, and whether/how a USB reset was
attempted. -/
structure CycleResult where
  value : Option Reading
  state : StaleState
  resetAttempted : Bool
  resetOutcome : Option Bool
deriving DecidableEq, Repr

namespace Sensor

/-- `Sensor._check_stale` (`src/sensor.py:200-226`): when the new reading
equals the stored one the counter is incremented; at the threshold the
sensor is closed, `_usb_reset` runs, on reset success the serial port is
reopened and warm-up reads are performed (faults there are swallowed), the
detector state is cleared and `None` is returned.  Otherwise the reading is
returned, with the counter reset and the baseline replaced on any change. -/
def _check_stale (env : RecoveryEnv) (s : StaleState) (r : Reading) : CycleResult :=
  if s.last = some r then
    if STALE_THRESHOLD ≤ s.count + 1 then
      let ok := _usb_reset env.reset
      let _warm := if ok then tryReopenWarmup env.reopenFault env.warmupFault else true
      { value := none, state := { last := none, count := 0 },
        resetAttempted := true, resetOutcome := some ok }
    else
      { value := some r, state := { last := s.last, count := s.count + 1 },
        resetAttempted := false, resetOutcome := none }
  else
    { value := some r, state := { last := some r, count := 0 },
      resetAttempted := false, resetOutcome := none }

end Sensor

/-- One real read cycle's transport behaviour: whether the input-buffer
flush or the command write faults, and the successive results of the
at-most-two `serial.read` calls (each either delivered bytes or a raised
I/O fault; a missing entry reads as no bytes). -/
structure Transport where
  flushFault : Bool
  writeFault : Bool
  reads : List (Except Fault (List Nat))

namespace Sensor

/-- Body of the `try` block of `Sensor._real_read` (`src/sensor.py:229-246`):
flush, write the command, first read; when fewer than 30 bytes arrived, one
further read whose bytes are appended; fewer than 30 combined bytes is the
short-response cycle failure; otherwise parse (a parse `ValueError` is a
raised fault) and feed the reading through `_check_stale`. -/
def _real_read_body (tr : Transport) (env : RecoveryEnv) (s : StaleState) :
    Except Fault CycleResult := do
  faultIf tr.flushFault .flushErr
  faultIf tr.writeFault .writeErr
  let d1 ← tr.reads.getD 0 (.ok [])
  let data ←
    if d1.length < 30 then do
      let d2 ← tr.reads.getD 1 (.ok [])
      pure (d1 ++ d2)
    else pure d1
  if data.length < 30 then
    pure { value := none, state := s, resetAttempted := false, resetOutcome := none }
  else
    match _parse_response data with
    | .error _ => throw .parseFail
    | .ok r => pure (_check_stale env s r)

/-- `Sensor._real_read` (`src/sensor.py:228-249`): the body under the
catch-all handler that converts any raised fault into a `None` cycle
result. -/
def _real_read (tr : Transport) (env : RecoveryEnv) (s : StaleState) : CycleResult :=
  match _real_read_body tr env s with
  | .ok res => res
  | .error _ => { value := none, state := s, resetAttempted := false, resetOutcome := none }

end Sensor

/-- Truncation toward zero, modelling Python's `int()` conversion. -/
def truncQ (q : ℚ) : ℤ := if 0 ≤ q then ⌊q⌋ else ⌈q⌉

namespace Sensor

/-- `Sensor._mock_read` (`src/sensor.py:251-263`).  The `_smooth_noise`
samples (sine waves plus Gaussian noise over the wall clock — transcendental
and randomized, hence not shallowly embeddable) enter as an oracle `ns`
giving the nine per-field samples; the arithmetic applied to them is the
source's. -/
def _mock_read (ns : Nat → ℚ) : Reading :=
  { temperature := roundTo 2 (22 + 3 * ns 0),
    humidity := roundTo 2 (50 + 15 * ns 1),
    light := ((max 0 (truncQ (300 + 200 * ns 2)) : ℤ) : ℚ),
    pressure := roundTo 3 (1013.25 + 5 * ns 3),
    noise := roundTo 2 (40 + 10 * ns 4),
    etvoc := ((max 0 (truncQ (50 + 80 * ns 5)) : ℤ) : ℚ),
    eco2 := ((max 400 (truncQ (600 + 300 * ns 6)) : ℤ) : ℚ),
    discomfort := roundTo 2 (70 + 5 * ns 7),
    heat_stroke := roundTo 2 (22 + 3 * ns 8) }

/-- `Sensor.read` (`src/sensor.py:194-198`): dispatch to the mock generator
in mock mode — leaving the detector state untouched and attempting no
reset — and to `_real_read` otherwise. -/
def read (mock : Bool) (ns : Nat → ℚ) (tr : Transport) (env : RecoveryEnv)
    (s : StaleState) : CycleResult :=
  if mock then
    { value := some (_mock_read ns), state := s, resetAttempted := false, resetOutcome := none }
  else
    _real_read tr env s

end Sensor

/-- Feed a list of decoded readings through the staleness detector in
order, collecting each cycle's returned value and the final state. -/
def observeSeq (env : RecoveryEnv) (s : StaleState) :
    List Reading → List (Option Reading) × StaleState
  | [] => ([], s)
  | r :: rs =>
    let res := Sensor._check_stale env s r
    let rest := observeSeq env res.state rs
    (res.value :: rest.1, rest.2)

/-- Run a sequence of mock-mode `Sensor.read` calls, threading the detector
state, collecting each cycle's result. -/
def runMock (tr : Transport) (env : RecoveryEnv) (s : StaleState) :
    List (Nat → ℚ) → List CycleResult × StaleState
  | [] => ([], s)
  | ns :: rest =>
    let res := Sensor.read true ns tr env s
    let tail := runMock tr env res.state rest
    (res :: tail.1, tail.2)

/-- Retention window in days (`src/database.py:10`). -/
def PRUNE_DAYS : Nat := 7

/-- A stored row of the `readings` table: insertion timestamp (seconds,
`DATETIME DEFAULT CURRENT_TIMESTAMP` abstracted to an integer clock) and
the stored reading fields. -/
structure DBRow where
  timestamp : ℤ
  reading : Reading
deriving DecidableEq, Repr

/-- `insert_reading` (`src/database.py:44-61`): append the new row stamped
`now`, then delete every row whose timestamp is older than
`datetime('now', '-7 days')`. -/
def insert_reading (db : List DBRow) (now : ℤ) (r : Reading) : List DBRow :=
  (db ++ [({ timestamp := now, reading := r } : DBRow)]).filter
    (fun row => decide (¬ row.timestamp < now - (PRUNE_DAYS : ℤ) * 86400))

lemma ebind_ok {ε α β : Type} (a : α) (k : α → Except ε β) :
    (Except.ok a : Except ε α) >>= k = k a := rfl

lemma ebind_err {ε α β : Type} (e : ε) (k : α → Except ε β) :
    (Except.error e : Except ε α) >>= k = .error e := rfl

lemma epure_ok {ε α : Type} (a : α) : (pure a : Except ε α) = .ok a := rfl

/-- The all-zero reading. -/
def r0 : Reading := ⟨0, 0, 0, 0, 0, 0, 0, 0, 0⟩

/-- A recovery environment where the xHCI controller is never found, so
recovery fails. -/
def env0 : RecoveryEnv :=
  { reset := { controllerFound := false, unbindFault := false, rescanFault := false,
               bindFault := false, newIdAlready := false, appears := fun _ => false },
    reopenFault := false, warmupFault := false }

/-- A recovery environment where every step succeeds and the device
reappears immediately, so recovery succeeds. -/
def env1 : RecoveryEnv :=
  { reset := { controllerFound := true, unbindFault := false, rescanFault := false,
               bindFault := false, newIdAlready := false, appears := fun _ => true },
    reopenFault := false, warmupFault := false }

/-- Counterexample to C1 as stated: from the initial detector state, ten
consecutive field-for-field identical readings all come back Fresh — the
10th consecutive identical reading does *not* yield Stale (the counter only
reaches 9 there; `_stale_count` counts repetitions, not observations). -/
theorem tenth_identical_reading_is_still_fresh :
    (observeSeq env0 { last := none, count := 0 } (List.replicate 10 r0)).1 =
      List.replicate 10 (some r0) := by
  decide

/-- C1 (amended): feeding identical readings from the initial state yields
Fresh for the first observation and for each of the next nine repetitions,
and Stale exactly at the 10th repetition, i.e. the 11th consecutive
identical observation, after which the detector state is cleared; a
differing reading at any point resets the counter to zero and stores the
new reading as the comparison baseline. -/
theorem stale_at_tenth_repetition (env : RecoveryEnv) (r : Reading)
    (s : StaleState) (r' : Reading) (hdiff : s.last ≠ some r') :
    (observeSeq env { last := none, count := 0 } (List.replicate 11 r)).1 =
      List.replicate 10 (some r) ++ [none] ∧
    (observeSeq env { last := none, count := 0 } (List.replicate 11 r)).2 =
      { last := none, count := 0 } ∧
    Sensor._check_stale env s r' =
      { value := some r', state := { last := some r', count := 0 },
        resetAttempted := false, resetOutcome := none } := by
  refine ⟨?_, ?_, ?_⟩
  · simp [observeSeq, Sensor._check_stale, STALE_THRESHOLD, List.replicate]
  · simp [observeSeq, Sensor._check_stale, STALE_THRESHOLD, List.replicate]
  · unfold Sensor._check_stale
    rw [if_neg hdiff]

/-- Witness for C1's amended theorem at the all-zero reading and the
initial detector state. -/
theorem stale_at_tenth_repetition_witness :
    (observeSeq env0 { last := none, count := 0 } (List.replicate 11 r0)).1 =
      List.replicate 10 (some r0) ++ [none] ∧
    (observeSeq env0 { last := none, count := 0 } (List.replicate 11 r0)).2 =
      { last := none, count := 0 } ∧
    Sensor._check_stale env0 { last := none, count := 0 } r0 =
      { value := some r0, state := { last := some r0, count := 0 },
        resetAttempted := false, resetOutcome := none } :=
  stale_at_tenth_repetition env0 r0 { last := none, count := 0 } r0 (by decide)

/-- The first 10 bytes of `sampleResp`, as delivered by a short first read. -/
def sampleC1 : List Nat := List.take 10 sampleResp

/-- The remaining 20 bytes of `sampleResp`, delivered by the single retry
read. -/
def sampleC2 : List Nat := List.drop 10 sampleResp

/-- C5: in a cycle whose first transport read delivers fewer than 30 bytes,
exactly one additional read is appended: whatever further chunks the
transport could deliver (`rest`) are never consulted; when the combined
bytes reach 30 and decode to a reading, the cycle proceeds through the
decoder into the staleness detector, and when they stay short the cycle
fails with a short-response `None` — state untouched, no recovery, no
further retry. -/
theorem short_read_single_retry (c1 c2 : List Nat)
    (rest : List (Except Fault (List Nat))) (env : RecoveryEnv) (s : StaleState)
    (r : Reading) (h1 : c1.length < 30) :
    (30 ≤ (c1 ++ c2).length → _parse_response (c1 ++ c2) = .ok r →
      Sensor._real_read ⟨false, false, .ok c1 :: .ok c2 :: rest⟩ env s =
        Sensor._check_stale env s r) ∧
    ((c1 ++ c2).length < 30 →
      Sensor._real_read ⟨false, false, .ok c1 :: .ok c2 :: rest⟩ env s =
        { value := none, state := s, resetAttempted := false, resetOutcome := none }) := by
  constructor
  · intro h2 hok
    have h2' : ¬(c1.length + c2.length < 30) := by
      rw [List.length_append] at h2; omega
    simp [Sensor._real_read, Sensor._real_read_body, faultIf, ebind_ok, epure_ok,
      h1, hok, h2']
  · intro h2
    have h2' : c1.length + c2.length < 30 := by
      rw [List.length_append] at h2; exact h2
    simp [Sensor._real_read, Sensor._real_read_body, faultIf, ebind_ok, epure_ok,
      h1, h2']

/-- Witness for C5: a valid frame split 10 + 20 across the two reads still
decodes and reaches the detector fresh. -/
theorem short_read_single_retry_witness :
    Sensor._real_read ⟨false, false, [.ok sampleC1, .ok sampleC2]⟩ env0
        { last := none, count := 0 } =
      Sensor._check_stale env0 { last := none, count := 0 } (readingOfBytes sampleResp) :=
  (short_read_single_retry sampleC1 sampleC2 [] env0 { last := none, count := 0 }
    (readingOfBytes sampleResp) (by decide)).1 (by decide) rfl

/-- C6: whenever the staleness detector fires — the decoded reading equals
the stored one and the incremented counter reaches the threshold — the
cycle returns `None` and the detector's counter and stored reading are
cleared to the initial empty state, for every recovery environment, i.e.
whether the invoked USB reset succeeds or fails. -/
theorem stale_cycle_fails_and_clears (env : RecoveryEnv) (s : StaleState)
    (r : Reading) (c1 : List Nat) (rest : List (Except Fault (List Nat)))
    (hlen : 30 ≤ c1.length) (hok : _parse_response c1 = .ok r)
    (hlast : s.last = some r) (hcnt : STALE_THRESHOLD ≤ s.count + 1) :
    Sensor._real_read ⟨false, false, .ok c1 :: rest⟩ env s =
      { value := none, state := { last := none, count := 0 },
        resetAttempted := true, resetOutcome := some (_usb_reset env.reset) } := by
  have hstale : Sensor._check_stale env s r =
      { value := none, state := { last := none, count := 0 },
        resetAttempted := true, resetOutcome := some (_usb_reset env.reset) } := by
    unfold Sensor._check_stale
    rw [if_pos hlast, if_pos hcnt]
  simp [Sensor._real_read, Sensor._real_read_body, faultIf, ebind_ok, epure_ok,
    show ¬(c1.length < 30) from by omega, hok, hstale]

/-- Witness for C6, at a recovery environment where the reset succeeds and
at one where it fails: the cycle fails and the detector is cleared in both. -/
theorem stale_cycle_fails_and_clears_witness :
    (Sensor._real_read ⟨false, false, [.ok sampleResp]⟩ env1
        { last := some (readingOfBytes sampleResp), count := 9 } =
      { value := none, state := { last := none, count := 0 },
        resetAttempted := true, resetOutcome := some (_usb_reset env1.reset) }) ∧
    (Sensor._real_read ⟨false, false, [.ok sampleResp]⟩ env0
        { last := some (readingOfBytes sampleResp), count := 9 } =
      { value := none, state := { last := none, count := 0 },
        resetAttempted := true, resetOutcome := some (_usb_reset env0.reset) }) :=
  ⟨stale_cycle_fails_and_clears env1 ⟨some (readingOfBytes sampleResp), 9⟩
      (readingOfBytes sampleResp) sampleResp [] (by decide) rfl rfl (by decide),
   stale_cycle_fails_and_clears env0 ⟨some (readingOfBytes sampleResp), 9⟩
      (readingOfBytes sampleResp) sampleResp [] (by decide) rfl rfl (by decide)⟩

/-- C7: every fault raised inside the recovery procedure and every
transport-level fault (or parse error) raised during a normal read is
caught by the enclosing handler and converted into a per-cycle failure
value: a faulting `_usb_reset` body yields outcome `false`, a faulting
read-cycle body yields the `None` cycle result with the detector state
untouched, and a faulting reopen/warm-up sequence is swallowed — none of
them escapes as an unhandled fault. -/
theorem faults_convert_to_cycle_failure (e : ResetEnv) (f : Fault)
    (tr : Transport) (env : RecoveryEnv) (s : StaleState) (g : Fault)
    (rf wf : Bool) (h : Fault) :
    (usbResetBody e = .error f → _usb_reset e = false) ∧
    (Sensor._real_read_body tr env s = .error g →
      Sensor._real_read tr env s =
        { value := none, state := s, resetAttempted := false, resetOutcome := none }) ∧
    (reopenWarmupBody rf wf = .error h → tryReopenWarmup rf wf = false) := by
  refine ⟨fun hf => ?_, fun hg => ?_, fun hh => ?_⟩
  · unfold _usb_reset
    rw [hf]
    cases e.controllerFound <;> rfl
  · unfold Sensor._real_read
    rw [hg]
  · unfold tryReopenWarmup
    rw [hh]

/-- A reset environment whose unbind sysfs write faults. -/
def resetFaultyUnbind : ResetEnv :=
  { controllerFound := true, unbindFault := true, rescanFault := false,
    bindFault := false, newIdAlready := false, appears := fun _ => true }

/-- A reset environment where every step succeeds and the device node is
present at once. -/
def resetAllGood : ResetEnv :=
  { controllerFound := true, unbindFault := false, rescanFault := false,
    bindFault := false, newIdAlready := false, appears := fun _ => true }

/-- `resetAllGood` but with the vendor/product identifier already
registered, so the `new_id` write raises `OSError`. -/
def resetAlreadyRegistered : ResetEnv :=
  { resetAllGood with newIdAlready := true }

/-- Witness for C7 at concrete faults: a failing unbind write, a failing
input-buffer flush, and a failing serial reopen. -/
theorem faults_convert_to_cycle_failure_witness :
    (_usb_reset resetFaultyUnbind = false) ∧
    (Sensor._real_read ⟨true, false, []⟩ env0 { last := none, count := 0 } =
      { value := none, state := { last := none, count := 0 },
        resetAttempted := false, resetOutcome := none }) ∧
    (tryReopenWarmup true false = false) :=
  ⟨(faults_convert_to_cycle_failure resetFaultyUnbind .unbindErr ⟨true, false, []⟩
      env0 { last := none, count := 0 } .flushErr true false .reopenErr).1 rfl,
   (faults_convert_to_cycle_failure resetFaultyUnbind .unbindErr ⟨true, false, []⟩
      env0 { last := none, count := 0 } .flushErr true false .reopenErr).2.1 rfl,
   (faults_convert_to_cycle_failure resetFaultyUnbind .unbindErr ⟨true, false, []⟩
      env0 { last := none, count := 0 } .flushErr true false .reopenErr).2.2 rfl⟩

/-- C8: re-registering the serial-bridge vendor/product identifier when it
is already registered (the `new_id` write raises `OSError`) is treated as
success: `_usb_reset`'s outcome is identical whether or not the identifier
was already present, and with the sysfs writes succeeding the procedure
always continues to the 10-attempt reappearance poll, whose result it
returns. -/
theorem newid_already_registered_is_success (e : ResetEnv) :
    (_usb_reset { e with newIdAlready := true } =
      _usb_reset { e with newIdAlready := false }) ∧
    (e.controllerFound = true → e.unbindFault = false → e.rescanFault = false →
      e.bindFault = false → _usb_reset e = pollReappear e.appears 0 10) := by
  obtain ⟨cf, uf, rfl_, bf, nia, ap⟩ := e
  constructor
  · cases cf <;> cases uf <;> cases rfl_ <;> cases bf <;> rfl
  · intro h1 h2 h3 h4
    subst h1; subst h2; subst h3; subst h4
    cases nia <;> rfl

/-- Witness for C8: with all sysfs writes succeeding and the device node
present, the reset reports success both when the identifier was already
registered and when it was not. -/
theorem newid_already_registered_is_success_witness :
    (_usb_reset { resetAlreadyRegistered with newIdAlready := true } =
      _usb_reset { resetAlreadyRegistered with newIdAlready := false }) ∧
    (_usb_reset resetAlreadyRegistered = pollReappear resetAlreadyRegistered.appears 0 10) :=
  ⟨(newid_already_registered_is_success resetAlreadyRegistered).1,
   (newid_already_registered_is_success resetAlreadyRegistered).2 rfl rfl rfl rfl⟩

/-- C9: in mock mode, any sequence of `Sensor.read` calls — whatever the
transport and recovery environment, and including arbitrarily many
identical consecutive readings — always returns a reading (never a
failure), never attempts a USB reset, and leaves the staleness detector
state exactly as it started at every step. -/
theorem mock_read_bypasses_detector (nss : List (Nat → ℚ)) (tr : Transport)
    (env : RecoveryEnv) (s : StaleState) :
    (runMock tr env s nss).2 = s ∧
    ((runMock tr env s nss).1.all fun res =>
      res.value.isSome && !res.resetAttempted && decide (res.state = s)) = true := by
  induction nss with
  | nil => simp [runMock]
  | cons ns rest ih =>
    refine ⟨?_, ?_⟩
    · simpa [runMock, Sensor.read] using ih.1
    · simpa [runMock, Sensor.read] using ih.2

/-- C10: every insert appends the new row stamped with the current time and
deletes exactly the rows older than the 7-day retention window, so after
any insert no stored row is older than 7 days (and the rows within the
window, plus the new row, are kept in order). -/
theorem insert_prunes_old_rows (db : List DBRow) (now : ℤ) (r : Reading) :
    insert_reading db now r =
      db.filter (fun row => decide (¬ row.timestamp < now - (PRUNE_DAYS : ℤ) * 86400)) ++
        [{ timestamp := now, reading := r }] ∧
    ((insert_reading db now r).all fun row =>
      decide (now - (PRUNE_DAYS : ℤ) * 86400 ≤ row.timestamp)) = true := by
  have hp : ((PRUNE_DAYS : ℕ) : ℤ) = 7 := rfl
  constructor
  · unfold insert_reading
    rw [List.filter_append]
    congr 1
    rw [List.filter_cons]
    rw [if_pos (decide_eq_true (show ¬ (now : ℤ) < now - (PRUNE_DAYS : ℤ) * 86400 by omega))]
    rfl
  · rw [List.all_eq_true]
    intro row hrow
    unfold insert_reading at hrow
    rw [List.mem_filter] at hrow
    have h := of_decide_eq_true hrow.2
    exact decide_eq_true (by omega)
